import Mathlib

/-!
Verification of the support-ticket workflow engine
(`src/graph.py`, `src/state.py`, `src/review.py`, `src/draft.py`,
`src/rag_retrieval.py`, `src/escalation_logger.py`, `classifier.py`,
`main.py`, `api.py`).

The engine is a LangGraph `StateGraph` over the `SupportTicketState`
TypedDict.  We embed that state as a Lean structure whose optional fields
are `Option`-typed: `none` is Python `None`.  Both entry points
(`main.create_initial_state` and `api.create_initial_state`) bind every
key of the dict, so throughout a run every key is present and Python's
`state.get(key, default)` returns the stored value even when that value
is `None`; the embedding therefore reads the field directly and notes
the (dead) Python default in a comment at each such site.

External collaborators (the Groq completion service used by Draft and
Review, the keyword classifier, and the retrieval module) are exactly
the interfaces §6 of the design scopes out of the engine; the embedding
takes them as parameters (`Collaborators`): each is a function from the
arguments the source passes to the outcome of the call, with
`Except.error` standing for a raised exception.  Every piece of control
flow of the repository's own stage and routing functions is translated
from the source.

Python expressions that raise (`None + 1`, `None >= 3`,
`None.lower()`) are embedded as `Except.error`; a node that cannot
raise is a total function.
-/

/-- A knowledge-base document: the `{title, content}` dicts of
`src/rag_retrieval.py`. -/
structure Document where
  title : String
  content : String
deriving DecidableEq, Repr

/-- The `TicketCategory` enum from `src/models.py`. -/
inductive TicketCategory where
  | billing
  | technical
  | security
  | general
deriving DecidableEq, Repr

/-- The `.value` of the `TicketCategory` enum. -/
def TicketCategory.value : TicketCategory → String
  | .billing => "billing"
  | .technical => "technical"
  | .security => "security"
  | .general => "general"

/-- The `SupportTicketState` TypedDict from `src/state.py`, with `Option` for the
Python-`Optional` fields (`none` = `None`).  Note the TypedDict has no
`escalation_message` field. -/
structure TicketState where
  subject : String
  description : String
  classification : Option String
  retrieved_context : Option (List Document)
  formatted_context : Option String
  retrieval_attempt : Option Int
  draft_response : Option String
  review_passed : Option Bool
  reviewer_feedback : Option String
  draft_attempt : Option Int
  max_attempts_reached : Option Bool
  escalated : Option Bool
deriving DecidableEq, Repr

/-- The external collaborators of §6, as the source calls them:
* `classify` — outcome of `TicketClassifier.classify_ticket` (the
  category of the returned `ClassificationResult`); `.error` = raised.
* `retrieve` — `RAGRetriever.retrieve_context(classification, subject,
  description, reviewer_feedback, attempt)`, a pure ranked-document
  function.
* `draftLLM` / `reviewLLM` — the Groq `simple_completion` call made by
  `DraftGenerator.generate_draft` / `DraftReviewer.review_draft`,
  keyed by the `attempt` argument of the invocation; `.error` = the
  client raised. -/
structure Collaborators where
  classify : Except String TicketCategory
  retrieve : Option String → String → String → Option String → Option Int → List Document
  draftLLM : Option Int → Except String String
  reviewLLM : Option Int → Except String String

/-- Python truthiness of an optional string (`None` and `""` are falsy). -/
def truthyStr : Option String → Bool
  | none => false
  | some s => s ≠ ""

/-- How a Python f-string renders an optional string (`None` → `"None"`). -/
def pyStr : Option String → String
  | none => "None"
  | some s => s

/-- How a Python f-string renders an optional integer (`None` → `"None"`). -/
def pyStrInt : Option Int → String
  | none => "None"
  | some n => toString n

/-- Proposition that `s` contains `t` as a substring. -/
def ContainsStr (s t : String) : Prop := ∃ a b, s = a ++ t ++ b

/-- The body built by the `for i, doc in enumerate(documents, 1)` loop of
`format_context_for_prompt`: one numbered block per document — index,
bold title, indented content — with the running index `n`. -/
def renderDocs : Nat → List Document → String
  | _, [] => ""
  | n, doc :: rest =>
    toString n ++ ". **" ++ doc.title ++ "**\n" ++
      "   " ++ doc.content ++ "\n\n" ++ renderDocs (n + 1) rest

/-- Embedding of `RAGRetriever.format_context_for_prompt` (src/rag_retrieval.py):
the fixed sentinel for an empty list, otherwise a header followed by
one numbered block per document (enumeration starting at 1). -/
def format_context_for_prompt (documents : List Document) : String :=
  if documents = [] then
    "No relevant documentation found."
  else
    "Relevant Documentation:\n\n" ++ renderDocs 1 documents

/-- The title and content of every document, in input order. -/
def docParts : List Document → List String
  | [] => []
  | doc :: rest => doc.title :: doc.content :: docParts rest

/-- The strings `parts` all occur inside `s`, in order and without
overlap: `s` splits as interleaving text around them. -/
def EmbedsInOrder (s : String) : List String → Prop
  | [] => True
  | t :: rest => ∃ a b, s = a ++ t ++ b ∧ EmbedsInOrder b rest

/-- The whitespace set of Python `str.strip`. -/
def pyIsSpace (c : Char) : Bool :=
  c = ' ' || c = '\t' || c = '\n' || c = '\r' || c = '\x0b' || c = '\x0c'

/-- Python `str.strip()`: drop whitespace from both ends. -/
def pyStrip (s : String) : String :=
  ⟨((s.data.dropWhile pyIsSpace).reverse.dropWhile pyIsSpace).reverse⟩

/-- Split a character list at every occurrence of `c`. -/
def splitOnChar (c : Char) : List Char → List (List Char)
  | [] => [[]]
  | x :: xs =>
    match splitOnChar c xs with
    | [] => [[]]
    | h :: t => if x = c then [] :: h :: t else (x :: h) :: t

/-- Python `s.split('\n')`. -/
def pySplitNl (s : String) : List String :=
  (splitOnChar '\n' s.data).map fun l => ⟨l⟩

/-- Python `s.startswith(pre)`. -/
def pyStartsWith (s pre : String) : Bool := pre.data.isPrefixOf s.data

/-- Left-to-right replacement of every occurrence of `pat` (non-empty
at every use site) by `rep`; `fuel` bounds the scan. -/
def replaceFuel (pat rep : List Char) : Nat → List Char → List Char
  | _, [] => []
  | 0, l => l
  | fuel + 1, x :: xs =>
    if pat.isPrefixOf (x :: xs) then
      rep ++ replaceFuel pat rep fuel ((x :: xs).drop pat.length)
    else
      x :: replaceFuel pat rep fuel xs

/-- Python `s.replace(pat, rep)`. -/
def pyReplace (s pat rep : String) : String :=
  ⟨replaceFuel pat.data rep.data s.data.length s.data⟩

/-- Python `s.upper()` (ASCII, as in the source's uses). -/
def pyUpper (s : String) : String := ⟨s.data.map Char.toUpper⟩

/-- Python `s.lower()` (ASCII, as in the source's uses). -/
def pyLower (s : String) : String := ⟨s.data.map Char.toLower⟩

/-- Test that `pat` occurs as a contiguous sublist. -/
def containsSub (pat : List Char) : List Char → Bool
  | [] => pat.isEmpty
  | x :: xs => pat.isPrefixOf (x :: xs) || containsSub pat xs

/-- Accumulator of the parsing loop in
`DraftReviewer._parse_review_result` (src/review.py). -/
structure ParseAcc where
  decision_line : String
  feedback_lines : List String
  found_decision : Bool
  found_feedback : Bool
deriving DecidableEq, Repr

/-- One iteration of the `for line in lines` loop of
`_parse_review_result`. -/
def parseReviewLine (acc : ParseAcc) (line0 : String) : ParseAcc :=
  let line := pyStrip line0
  if pyStartsWith line "DECISION:" then
    { acc with decision_line := pyStrip (pyReplace line "DECISION:" ""),
               found_decision := true }
  else if pyStartsWith line "FEEDBACK:" then
    { acc with feedback_lines := acc.feedback_lines ++ [pyStrip (pyReplace line "FEEDBACK:" "")],
               found_feedback := true }
  else if acc.found_feedback then
    { acc with feedback_lines := acc.feedback_lines ++ [line] }
  else
    acc

/-- Python `pat in s` (substring membership). -/
def strContains (s pat : String) : Bool := containsSub pat.data s.data

/-- Embedding of `DraftReviewer._parse_review_result` (src/review.py): split the LLM
reply into lines, scan for `DECISION:` / `FEEDBACK:` markers, default to
rejection when no decision was found and to a fixed feedback text when
no feedback was collected. -/
def parse_review_result (review_result : String) : Bool × String :=
  let acc := (pySplitNl (pyStrip review_result)).foldl parseReviewLine
    { decision_line := "", feedback_lines := [], found_decision := false,
      found_feedback := false }
  let approved := acc.found_decision && strContains (pyUpper acc.decision_line) "APPROVED"
  let feedback := pyStrip (String.intercalate " " acc.feedback_lines)
  let feedback :=
    if feedback = "" then
      if approved then "Response meets all quality standards and policies."
      else "Response needs improvement. Please revise for better accuracy and helpfulness."
    else feedback
  (approved, feedback)

/-- The fixed feedback returned by `review_draft` when the completion
client raises (src/review.py, `except` branch). -/
def techFeedback : String :=
  "Unable to complete review due to technical issues. Please revise the response to be more helpful and accurate."

/-- Embedding of `DraftReviewer.review_draft` (src/review.py).  The prompt builders
run before the `try` block; `_get_reviewer_system_prompt` calls
`classification.lower()`, which raises `AttributeError` when the
classification is `None`.  Inside the `try`, a raise from the client is
converted to `(False, techFeedback)`; a reply is parsed. -/
def review_draft (llm : Option Int → Except String String)
    (subject description : String) (classification : Option String)
    (draft_response : Option String) (attempt : Option Int) :
    Except String (Bool × String) :=
  match classification with
  | none => .error "AttributeError: NoneType object has no attribute lower"
  | some _ =>
    let _ := subject
    let _ := description
    let _ := draft_response
    match llm attempt with
    | .ok review_result => .ok (parse_review_result review_result)
    | .error _ => .ok (false, techFeedback)

/-- Outcome of one Review invocation as a pure value of the collaborator
behaviour: parse a reply, or the technical-failure pair on a raise. -/
def reviewResult (llm : Option Int → Except String String) (attempt : Option Int) :
    Bool × String :=
  match llm attempt with
  | .ok review_result => parse_review_result review_result
  | .error _ => (false, techFeedback)

/-- Embedding of `DraftGenerator._get_fallback_response` (src/draft.py): the
category-keyed static fallback map, defaulting to the general text. -/
def get_fallback_response (classification : String) : String :=
  if pyLower classification = "billing" then
    "Thank you for contacting us about your billing inquiry. I understand your concern and want to help resolve this for you. Please allow me some time to review your account details, and I\'ll get back to you within 24 hours with a comprehensive response. If this is urgent, please contact our billing support team directly."
  else if pyLower classification = "technical" then
    "Thank you for reaching out about this technical issue. I understand how frustrating this can be. While I gather more information to provide you with the best solution, please try these quick steps: clear your browser cache, ensure you\'re using the latest version of the application, and restart your device. I\'ll follow up with more specific guidance shortly."
  else if pyLower classification = "security" then
    "Thank you for bringing this security concern to our attention. Your account security is our top priority. As a precautionary measure, please change your password immediately if you haven\'t already done so. I\'m escalating this to our security team who will review your account and contact you within 2 hours."
  else
    "Thank you for contacting our support team. I understand you need assistance, and I\'m here to help. I\'m currently reviewing your inquiry to provide you with the most accurate information. I\'ll respond with detailed guidance within 24 hours. If you have any urgent concerns, please don\'t hesitate to reach out again."

/-- Embedding of `DraftGenerator.generate_draft` (src/draft.py).  The prompt builders
run before the `try` block: `_get_category_system_prompt` calls
`classification.lower()` (`AttributeError` on `None`), and
`_build_user_prompt` evaluates `reviewer_feedback and attempt > 1`,
which raises `TypeError` when the feedback is truthy and the attempt is
`None`.  Inside the `try`, a raise from the client is converted to the
category fallback text. -/
def generate_draft (llm : Option Int → Except String String)
    (subject description : String) (classification : Option String)
    (formatted_context : Option String) (reviewer_feedback : Option String)
    (attempt : Option Int) : Except String String :=
  match classification with
  | none => .error "AttributeError: NoneType object has no attribute lower"
  | some cls =>
    let _ := subject
    let _ := description
    let _ := formatted_context
    if truthyStr reviewer_feedback ∧ attempt = none then
      .error "TypeError: unorderable types NoneType and int"
    else
      match llm attempt with
      | .ok draft => .ok draft
      | .error _ => .ok (get_fallback_response cls)

/-- Outcome of one Draft invocation as a pure value of the collaborator
behaviour: the reply, or the category fallback on a raise. -/
def draftResult (llm : Option Int → Except String String) (cls : String)
    (attempt : Option Int) : String :=
  match llm attempt with
  | .ok draft => draft
  | .error _ => get_fallback_response cls

/-- Embedding of `classify_ticket_node` (classifier.py).  The node never raises: an
empty/missing subject or description, and a raise from the classifier,
both fall back to the `general` category.  (The `processing_log` and
`classification_metadata` keys the source also returns are not channels
of `SupportTicketState`.) -/
def classify_ticket_node (c : Collaborators) (s : TicketState) : TicketState :=
  if s.subject = "" || s.description = "" then
    { s with classification := some TicketCategory.general.value }
  else
    match c.classify with
    | .ok result => { s with classification := some result.value }
    | .error _ => { s with classification := some TicketCategory.general.value }

/-- The classification string `classify_ticket_node` stores. -/
def classifiedValue (c : Collaborators) (s : TicketState) : String :=
  if s.subject = "" || s.description = "" then "general"
  else
    match c.classify with
    | .ok result => result.value
    | .error _ => "general"

/-- Embedding of `rag_retrieval_node` (src/graph.py).  `attempt =
state.get('retrieval_attempt', 1)`: the key is always bound (both
initializers set it), so this reads the stored value — which is `None`
under `main.py`'s initializer.  The node re-stores that very value and
initializes `draft_attempt` to 1. -/
def rag_retrieval_node (c : Collaborators) (s : TicketState) : TicketState :=
  let attempt := s.retrieval_attempt
  let retrieved_docs :=
    c.retrieve s.classification s.subject s.description s.reviewer_feedback attempt
  let formatted_context := format_context_for_prompt retrieved_docs
  { s with retrieved_context := some retrieved_docs,
           formatted_context := some formatted_context,
           retrieval_attempt := attempt,
           draft_attempt := some 1 }

/-- Embedding of `draft_generation_node` (src/draft.py).  Note the source passes
`attempt=state.get('retrieval_attempt', 1)` — the retrieval counter. -/
def draft_generation_node (c : Collaborators) (s : TicketState) :
    Except String TicketState :=
  match generate_draft c.draftLLM s.subject s.description s.classification
      s.formatted_context s.reviewer_feedback s.retrieval_attempt with
  | .ok draft => .ok { s with draft_response := some draft }
  | .error e => .error e

/-- Embedding of `review_node` (src/review.py): reviews the draft at `attempt =
state.get('draft_attempt', 1)` and re-stores that attempt value
unchanged. -/
def review_node (c : Collaborators) (s : TicketState) : Except String TicketState :=
  let attempt := s.draft_attempt
  match review_draft c.reviewLLM s.subject s.description s.classification
      s.draft_response attempt with
  | .ok result =>
    .ok { s with review_passed := some result.1,
                 reviewer_feedback := some result.2,
                 draft_attempt := attempt }
  | .error e => .error e

/-- Embedding of `check_max_attempts` (src/graph.py): the routing decision after each
review.  `attempt = state.get('draft_attempt', 1)` and `review_passed =
state.get('review_passed', False)` both read keys that are always bound.
A truthy `review_passed` routes to `"approved"`; otherwise `attempt >= 3`
(a `TypeError` if the attempt is `None`) decides between
`"max_attempts_reached"` and `"retry"`. -/
def check_max_attempts (s : TicketState) : Except String String :=
  let attempt := s.draft_attempt
  let review_passed := s.review_passed
  if review_passed = some true then
    .ok "approved"
  else
    match attempt with
    | none => .error "TypeError: unorderable types NoneType and int"
    | some a => if a ≥ 3 then .ok "max_attempts_reached" else .ok "retry"

/-- Embedding of `retry_rag_node` (src/graph.py): `attempt =
state.get('retrieval_attempt', 1) + 1` — a `TypeError` when the stored
counter is `None`. -/
def retry_rag_node (c : Collaborators) (s : TicketState) : Except String TicketState :=
  match s.retrieval_attempt with
  | none => .error "TypeError: unsupported operand types NoneType and int"
  | some a0 =>
    let attempt := a0 + 1
    let retrieved_docs :=
      c.retrieve s.classification s.subject s.description s.reviewer_feedback (some attempt)
    .ok { s with retrieved_context := some retrieved_docs,
                 formatted_context := some (format_context_for_prompt retrieved_docs),
                 retrieval_attempt := some attempt }

/-- Embedding of `retry_draft_node` (src/graph.py): `attempt =
state.get('draft_attempt', 1) + 1` — a `TypeError` when the stored
counter is `None`. -/
def retry_draft_node (c : Collaborators) (s : TicketState) : Except String TicketState :=
  match s.draft_attempt with
  | none => .error "TypeError: unsupported operand types NoneType and int"
  | some a0 =>
    let attempt := a0 + 1
    match generate_draft c.draftLLM s.subject s.description s.classification
        s.formatted_context s.reviewer_feedback (some attempt) with
    | .ok draft => .ok { s with draft_response := some draft, draft_attempt := some attempt }
    | .error e => .error e

/-- The escalation message f-string of `escalation_node` (src/graph.py)
and `escalation_node_with_logging` (src/escalation_logger.py) — the two
are textually identical.  The `state.get(..., 'No draft generated')` and
`state.get(..., 'No feedback available')` defaults are dead (the keys
are always bound), so a `None` value renders as Python prints it. -/
def escalation_message (s : TicketState) : String :=
  "This ticket has been escalated for human review after failing automated processing.\n\nOriginal Ticket:\nSubject: " ++
    s.subject ++ "  \nDescription: " ++ s.description ++ "\nClassification: " ++
    pyStr s.classification ++ "\n\nAttempts Made: " ++ pyStrInt s.draft_attempt ++
    "\nFailed Draft: " ++ pyStr s.draft_response ++ "\nFinal Reviewer Feedback: " ++
    pyStr s.reviewer_feedback ++ "\n\nPlease review and respond manually."

/-- The partial update an escalation node returns.  `escalation_message`
is not a channel of `SupportTicketState` (src/state.py), so the graph
keeps only the first two keys. -/
structure EscalationUpdate where
  escalated : Option Bool
  max_attempts_reached : Option Bool
  escalation_message : Option String
deriving DecidableEq, Repr

/-- Embedding of `EscalationLogger.log_escalation` (src/escalation_logger.py): the
CSV write is wrapped in try/except, so the call returns whatever the
recorder outcome was. -/
def log_escalation (recorder : Except String Unit) : Unit :=
  match recorder with
  | .ok _ => ()
  | .error _ => ()

/-- Embedding of `escalation_node` (src/graph.py) — the node wired into
`create_support_graph`. -/
def escalation_node (s : TicketState) : EscalationUpdate :=
  { escalated := some true, max_attempts_reached := some true,
    escalation_message := some (escalation_message s) }

/-- Embedding of `escalation_node_with_logging` (src/escalation_logger.py).
The node first constructs `EscalationLogger()`, whose
`_ensure_csv_exists` performs an unguarded `open`-and-write when the
CSV file is missing (escalation_logger.py lines 14-15): `ctor` is the
outcome of that construction, and a raise there propagates out of the
node.  Only then does `log_escalation` run; its append-and-write sits
inside try/except, so `write` is absorbed.  On a successfully
constructed recorder the node returns the same update as
`escalation_node`. -/
def escalation_node_with_logging (ctor write : Except String Unit) (s : TicketState) :
    Except String EscalationUpdate :=
  match ctor with
  | .error e => .error e
  | .ok _ =>
    let _ := log_escalation write
    .ok { escalated := some true, max_attempts_reached := some true,
          escalation_message := some (escalation_message s) }

/-- Merging an escalation node's update into the state: only the
`escalated` and `max_attempts_reached` keys are state channels. -/
def escalation_step (s : TicketState) : TicketState :=
  { s with escalated := some true, max_attempts_reached := some true }

/-- The Review→routing loop of the compiled graph (`review_draft` node,
`check_max_attempts` conditional edges, `retry_rag` → `retry_draft` back
edge), with `fuel` bounding recursion (LangGraph's recursion limit) and
the returned `Nat` counting executed Review cycles. -/
def runCycles (c : Collaborators) : Nat → TicketState → Except String (TicketState × Nat)
  | 0, _ => .error "GraphRecursionError: recursion limit reached"
  | fuel + 1, s =>
    match review_node c s with
    | .error e => .error e
    | .ok s1 =>
      match check_max_attempts s1 with
      | .error e => .error e
      | .ok route =>
        if route = "approved" then .ok (s1, 1)
        else if route = "max_attempts_reached" then .ok (escalation_step s1, 1)
        else
          match retry_rag_node c s1 with
          | .error e => .error e
          | .ok s2 =>
            match retry_draft_node c s2 with
            | .error e => .error e
            | .ok s3 =>
              match runCycles c fuel s3 with
              | .error e => .error e
              | .ok (t, n) => .ok (t, n + 1)

/-- Embedding of `graph.invoke(initial_state)` on the graph wired in
`create_support_graph` (src/graph.py): classify_ticket → rag_retrieval →
draft_response → review cycles.  Fuel 25 is LangGraph's default
recursion limit. -/
def execute (c : Collaborators) (s0 : TicketState) : Except String (TicketState × Nat) :=
  let s1 := classify_ticket_node c s0
  let s2 := rag_retrieval_node c s1
  match draft_generation_node c s2 with
  | .error e => .error e
  | .ok s3 => runCycles c 25 s3

/-- Embedding of `create_initial_state` from `main.py`: every optional key bound to
`None` — including both attempt counters. -/
def main_create_initial_state (subject description : String) : TicketState :=
  { subject := subject, description := description, classification := none,
    retrieved_context := none, formatted_context := none, retrieval_attempt := none,
    draft_response := none, review_passed := none, reviewer_feedback := none,
    draft_attempt := none, max_attempts_reached := none, escalated := none }

/-- Embedding of `create_initial_state` from `api.py`: as in `main.py` but with both
attempt counters bound to 1. -/
def api_create_initial_state (subject description : String) : TicketState :=
  { subject := subject, description := description, classification := none,
    retrieved_context := none, formatted_context := none, retrieval_attempt := some 1,
    draft_response := none, review_passed := none, reviewer_feedback := none,
    draft_attempt := some 1, max_attempts_reached := none, escalated := none }

/-- A valid freshly initialized ticket record per §3 of the design:
non-empty immutable inputs, every workflow field unset and both attempt
counters at 1 — exactly `api.create_initial_state` on non-empty input. -/
def ValidInit (s : TicketState) : Prop :=
  s.subject ≠ "" ∧ s.description ≠ "" ∧ s.classification = none ∧
    s.retrieved_context = none ∧ s.formatted_context = none ∧
    s.retrieval_attempt = some 1 ∧ s.draft_response = none ∧
    s.review_passed = none ∧ s.reviewer_feedback = none ∧
    s.draft_attempt = some 1 ∧ s.max_attempts_reached = none ∧ s.escalated = none

instance (s : TicketState) : Decidable (ValidInit s) := by
  unfold ValidInit
  infer_instance

/-- The state after one `review_draft` node: both review fields written,
the draft counter re-stored unchanged. -/
def afterReview (c : Collaborators) (s : TicketState) : TicketState :=
  { s with review_passed := some (reviewResult c.reviewLLM s.draft_attempt).1,
           reviewer_feedback := some (reviewResult c.reviewLLM s.draft_attempt).2,
           draft_attempt := s.draft_attempt }

/-- A mid-run state: attempt counters at 2, last review failed. -/
def stateW1 : TicketState :=
  { subject := "Login issue", description := "Cannot login to my account",
    classification := some "security", retrieved_context := some [],
    formatted_context := some "No relevant documentation found.",
    retrieval_attempt := some 2, draft_response := some "Please reset your password.",
    review_passed := some false, reviewer_feedback := some "Add concrete steps.",
    draft_attempt := some 2, max_attempts_reached := none, escalated := none }

/-- Collaborator behaviour: classifier works, retrieval finds nothing,
the completion service answers every call, the reviewer approves. -/
def collabOK : Collaborators :=
  { classify := .ok .security,
    retrieve := fun _ _ _ _ _ => [],
    draftLLM := fun _ => .ok "Sample draft reply.",
    reviewLLM := fun _ => .ok "DECISION: APPROVED\nFEEDBACK: Looks good." }

/-- Collaborator behaviour: the completion service is down — every Draft
and every Review call raises. -/
def collabDown : Collaborators :=
  { classify := .ok .security,
    retrieve := fun _ _ _ _ _ => [],
    draftLLM := fun _ => .error "requests.exceptions.ConnectionError",
    reviewLLM := fun _ => .error "requests.exceptions.ConnectionError" }

/-- Collaborator behaviour: every Draft call raises, but the reviewer
still answers and approves what it reads. -/
def collabDraftFail : Collaborators :=
  { classify := .ok .general,
    retrieve := fun _ _ _ _ _ => [],
    draftLLM := fun _ => .error "requests.exceptions.ConnectionError",
    reviewLLM := fun _ => .ok "DECISION: APPROVED\nFEEDBACK: Clear and helpful." }

/-- Collaborator behaviour: the classifier raises; the completion
service is down too. -/
def collabClassifyFail : Collaborators :=
  { classify := .error "AttributeError inside TicketClassifier",
    retrieve := fun _ _ _ _ _ => [],
    draftLLM := fun _ => .error "requests.exceptions.ConnectionError",
    reviewLLM := fun _ => .error "requests.exceptions.ConnectionError" }

/-- A concrete `api.create_initial_state` record. -/
def initW : TicketState :=
  api_create_initial_state "Cannot login to my account"
    "I keep getting an invalid credentials error."

/-- A concrete `main.create_initial_state` record (same ticket). -/
def mainW : TicketState :=
  main_create_initial_state "Cannot login to my account"
    "I keep getting an invalid credentials error."

/-- Two concrete knowledge-base documents. -/
def docsW : List Document :=
  [{ title := "Login Issues", content := "Try clearing your browser cache." },
   { title := "Password Reset", content := "Use the forgot-password link." }]

/-- The terminal record of the run of `collabOK` on `initW`. -/
def tW3 : TicketState :=
  { subject := "Cannot login to my account",
    description := "I keep getting an invalid credentials error.",
    classification := some "security", retrieved_context := some [],
    formatted_context := some "No relevant documentation found.",
    retrieval_attempt := some 1, draft_response := some "Sample draft reply.",
    review_passed := some true, reviewer_feedback := some "Looks good.",
    draft_attempt := some 1, max_attempts_reached := none, escalated := none }

/-- The payload of `retry_rag_node collabOK stateW1`. -/
def s2W : TicketState :=
  { stateW1 with
    retrieved_context := some []
    formatted_context := some "No relevant documentation found."
    retrieval_attempt := some 3 }

/-- The payload of `retry_draft_node collabOK stateW1`. -/
def s3W : TicketState :=
  { stateW1 with
    draft_response := some "Sample draft reply."
    draft_attempt := some 3 }

/-- The terminal record of the run of `collabDraftFail` on `initW`:
the fallback draft was approved on the first cycle. -/
def tW6 : TicketState :=
  { subject := "Cannot login to my account",
    description := "I keep getting an invalid credentials error.",
    classification := some "general", retrieved_context := some [],
    formatted_context := some "No relevant documentation found.",
    retrieval_attempt := some 1,
    draft_response := some (get_fallback_response "general"),
    review_passed := some true, reviewer_feedback := some "Clear and helpful.",
    draft_attempt := some 1, max_attempts_reached := none, escalated := none }

/-- A record routed to Escalate: third failed review. -/
def stateW8 : TicketState :=
  { subject := "Login issue", description := "Cannot login to my account",
    classification := some "security", retrieved_context := some [],
    formatted_context := some "No relevant documentation found.",
    retrieval_attempt := some 3, draft_response := some "Please reset your password.",
    review_passed := some false, reviewer_feedback := some "Add concrete steps.",
    draft_attempt := some 3, max_attempts_reached := none, escalated := none }

theorem String.append_assoc' (a b c : String) : a ++ b ++ c = a ++ (b ++ c) := by
  apply String.ext
  simp

theorem embedsInOrder_prepend (pre s : String) (parts : List String)
    (h : EmbedsInOrder s parts) : EmbedsInOrder (pre ++ s) parts := by
  cases parts with
  | nil => trivial
  | cons t rest =>
    obtain ⟨a, b, hs, hrest⟩ := h
    exact ⟨pre ++ a, b, by simp only [hs, String.append_assoc'], hrest⟩

theorem embedsInOrder_renderDocs (documents : List Document) (n : Nat) :
    EmbedsInOrder (renderDocs n documents) (docParts documents) := by
  induction documents generalizing n with
  | nil => trivial
  | cons doc rest ih =>
    refine ⟨toString n ++ ". **",
      "**\n" ++ ("   " ++ (doc.content ++ ("\n\n" ++ renderDocs (n + 1) rest))), ?_, ?_⟩
    · show renderDocs n (doc :: rest) = _
      simp only [renderDocs, String.append_assoc']
    · refine ⟨"**\n" ++ "   ", "\n\n" ++ renderDocs (n + 1) rest, ?_, ?_⟩
      · simp only [String.append_assoc']
      · exact embedsInOrder_prepend _ _ _ (ih (n + 1))

theorem review_draft_some (llm) (subject description : String) (cls : String)
    (draft_response : Option String) (attempt : Option Int) :
    review_draft llm subject description (some cls) draft_response attempt =
      .ok (reviewResult llm attempt) := by
  unfold review_draft reviewResult
  cases llm attempt <;> rfl

theorem generate_draft_some (llm) (subject description : String) (cls : String)
    (formatted_context reviewer_feedback : Option String) (a : Int) :
    generate_draft llm subject description (some cls) formatted_context
        reviewer_feedback (some a) = .ok (draftResult llm cls (some a)) := by
  unfold generate_draft draftResult
  simp only [reduceCtorEq, and_false, if_false]
  cases llm (some a) <;> rfl

theorem classify_ticket_node_eq (c : Collaborators) (s : TicketState) :
    classify_ticket_node c s = { s with classification := some (classifiedValue c s) } := by
  unfold classify_ticket_node classifiedValue
  split
  · rfl
  · cases c.classify <;> rfl

@[simp] theorem afterReview_subject (c : Collaborators) (s : TicketState) :
    (afterReview c s).subject = s.subject := rfl

@[simp] theorem afterReview_description (c : Collaborators) (s : TicketState) :
    (afterReview c s).description = s.description := rfl

@[simp] theorem afterReview_classification (c : Collaborators) (s : TicketState) :
    (afterReview c s).classification = s.classification := rfl

@[simp] theorem afterReview_retrieval_attempt (c : Collaborators) (s : TicketState) :
    (afterReview c s).retrieval_attempt = s.retrieval_attempt := rfl

@[simp] theorem afterReview_draft_attempt (c : Collaborators) (s : TicketState) :
    (afterReview c s).draft_attempt = s.draft_attempt := rfl

@[simp] theorem afterReview_escalated (c : Collaborators) (s : TicketState) :
    (afterReview c s).escalated = s.escalated := rfl

@[simp] theorem afterReview_review_passed (c : Collaborators) (s : TicketState) :
    (afterReview c s).review_passed = some (reviewResult c.reviewLLM s.draft_attempt).1 := rfl

@[simp] theorem afterReview_reviewer_feedback (c : Collaborators) (s : TicketState) :
    (afterReview c s).reviewer_feedback = some (reviewResult c.reviewLLM s.draft_attempt).2 := rfl

@[simp] theorem escalation_step_subject (s : TicketState) :
    (escalation_step s).subject = s.subject := rfl

@[simp] theorem escalation_step_description (s : TicketState) :
    (escalation_step s).description = s.description := rfl

@[simp] theorem escalation_step_classification (s : TicketState) :
    (escalation_step s).classification = s.classification := rfl

@[simp] theorem escalation_step_retrieval_attempt (s : TicketState) :
    (escalation_step s).retrieval_attempt = s.retrieval_attempt := rfl

@[simp] theorem escalation_step_draft_attempt (s : TicketState) :
    (escalation_step s).draft_attempt = s.draft_attempt := rfl

@[simp] theorem escalation_step_review_passed (s : TicketState) :
    (escalation_step s).review_passed = s.review_passed := rfl

@[simp] theorem escalation_step_escalated (s : TicketState) :
    (escalation_step s).escalated = some true := rfl

@[simp] theorem escalation_step_max_attempts_reached (s : TicketState) :
    (escalation_step s).max_attempts_reached = some true := rfl

theorem review_node_eq (c : Collaborators) (s : TicketState) (cls : String)
    (hc : s.classification = some cls) :
    review_node c s = .ok (afterReview c s) := by
  unfold review_node afterReview
  rw [hc]
  simp only [review_draft_some]

theorem retry_rag_node_eq (c : Collaborators) (s : TicketState) (r : Int)
    (hr : s.retrieval_attempt = some r) :
    retry_rag_node c s = .ok { s with
      retrieved_context :=
        some (c.retrieve s.classification s.subject s.description s.reviewer_feedback (some (r + 1))),
      formatted_context :=
        some (format_context_for_prompt
          (c.retrieve s.classification s.subject s.description s.reviewer_feedback (some (r + 1)))),
      retrieval_attempt := some (r + 1) } := by
  unfold retry_rag_node
  rw [hr]

theorem retry_draft_node_eq (c : Collaborators) (s : TicketState) (k : Int) (cls : String)
    (hk : s.draft_attempt = some k) (hc : s.classification = some cls) :
    retry_draft_node c s = .ok { s with
      draft_response := some (draftResult c.draftLLM cls (some (k + 1))),
      draft_attempt := some (k + 1) } := by
  unfold retry_draft_node
  rw [hk, hc]
  simp only [generate_draft_some]

theorem draft_generation_node_eq (c : Collaborators) (s : TicketState) (cls : String) (r : Int)
    (hc : s.classification = some cls) (hr : s.retrieval_attempt = some r) :
    draft_generation_node c s =
      .ok { s with draft_response := some (draftResult c.draftLLM cls (some r)) } := by
  unfold draft_generation_node
  rw [hc, hr]
  simp only [generate_draft_some]

theorem check_max_attempts_approved (s : TicketState) (h : s.review_passed = some true) :
    check_max_attempts s = .ok "approved" := by
  unfold check_max_attempts
  rw [h]
  rfl

theorem check_max_attempts_escalate (s : TicketState) (a : Int)
    (hp : s.review_passed = some false) (ha : s.draft_attempt = some a) (h3 : 3 ≤ a) :
    check_max_attempts s = .ok "max_attempts_reached" := by
  unfold check_max_attempts
  rw [hp, ha]
  simp [show (a ≥ 3) from h3]

theorem check_max_attempts_retry (s : TicketState) (a : Int)
    (hp : s.review_passed = some false) (ha : s.draft_attempt = some a) (h3 : a < 3) :
    check_max_attempts s = .ok "retry" := by
  unfold check_max_attempts
  rw [hp, ha]
  simp [show ¬(a ≥ 3) from not_le.mpr h3]

theorem runCycles_succ_approved (c : Collaborators) (fuel : Nat) (s : TicketState)
    (cls : String) (hc : s.classification = some cls)
    (hb : (reviewResult c.reviewLLM s.draft_attempt).1 = true) :
    runCycles c (fuel + 1) s = .ok (afterReview c s, 1) := by
  have hroute : check_max_attempts (afterReview c s) = .ok "approved" :=
    check_max_attempts_approved _ (by simp [hb])
  simp only [runCycles, review_node_eq c s cls hc, hroute]
  rfl

theorem runCycles_succ_escalate (c : Collaborators) (fuel : Nat) (s : TicketState)
    (cls : String) (k : Int) (hc : s.classification = some cls)
    (hk : s.draft_attempt = some k)
    (hb : (reviewResult c.reviewLLM s.draft_attempt).1 = false) (h3 : 3 ≤ k) :
    runCycles c (fuel + 1) s = .ok (escalation_step (afterReview c s), 1) := by
  have hroute : check_max_attempts (afterReview c s) = .ok "max_attempts_reached" :=
    check_max_attempts_escalate _ k (by simp [hb]) (by simp [hk]) h3
  simp only [runCycles, review_node_eq c s cls hc, hroute]
  rfl

theorem retry_rag_node_spec (c : Collaborators) (s : TicketState) (r : Int)
    (hr : s.retrieval_attempt = some r) :
    ∃ s2, retry_rag_node c s = .ok s2 ∧ s2.classification = s.classification ∧
      s2.subject = s.subject ∧ s2.description = s.description ∧
      s2.retrieval_attempt = some (r + 1) ∧ s2.draft_attempt = s.draft_attempt ∧
      s2.reviewer_feedback = s.reviewer_feedback ∧ s2.escalated = s.escalated ∧
      s2.review_passed = s.review_passed :=
  ⟨_, retry_rag_node_eq c s r hr, rfl, rfl, rfl, rfl, rfl, rfl, rfl, rfl⟩

theorem retry_draft_node_spec (c : Collaborators) (s : TicketState) (k : Int) (cls : String)
    (hk : s.draft_attempt = some k) (hc : s.classification = some cls) :
    ∃ s3, retry_draft_node c s = .ok s3 ∧ s3.classification = s.classification ∧
      s3.subject = s.subject ∧ s3.description = s.description ∧
      s3.retrieval_attempt = s.retrieval_attempt ∧ s3.draft_attempt = some (k + 1) ∧
      s3.escalated = s.escalated ∧ s3.review_passed = s.review_passed :=
  ⟨_, retry_draft_node_eq c s k cls hk hc, rfl, rfl, rfl, rfl, rfl, rfl, rfl⟩

/-- Master lemma for the Review loop: entered with a set classification,
integer attempt counters and `escalated` unset, the loop returns a
terminal record (no raise, no fuel exhaustion) whose counters advanced
in lock-step by one per executed cycle, with exactly one of the two
terminal outcomes set. -/
theorem runCycles_spec (c : Collaborators) :
    ∀ (fuel : Nat) (s : TicketState) (cls : String) (r k : Int),
      s.classification = some cls → s.retrieval_attempt = some r →
      s.draft_attempt = some k → s.escalated = none →
      1 ≤ k → k ≤ 3 → (4 - k).toNat ≤ fuel →
      ∃ t n, runCycles c fuel s = .ok (t, n) ∧ 1 ≤ n ∧ k + (n : Int) ≤ 4 ∧
        t.subject = s.subject ∧ t.description = s.description ∧
        t.classification = some cls ∧
        t.draft_attempt = some (k + (n : Int) - 1) ∧
        t.retrieval_attempt = some (r + (n : Int) - 1) ∧
        t.review_passed = some ((reviewResult c.reviewLLM t.draft_attempt).1) ∧
        ((t.review_passed = some true ∧ t.escalated = none) ∨
         (t.review_passed = some false ∧ t.escalated = some true ∧ k + (n : Int) - 1 = 3)) := by
  intro fuel
  induction fuel with
  | zero =>
    intro s cls r k _ _ _ _ h1 h3 hfuel
    exfalso
    omega
  | succ fuel ih =>
    intro s cls r k hc hr hk he h1 h3 hfuel
    cases hb : (reviewResult c.reviewLLM s.draft_attempt).1 with
    | true =>
      refine ⟨afterReview c s, 1, runCycles_succ_approved c fuel s cls hc hb,
        le_refl 1, ?_, rfl, rfl, by simp [hc], ?_, ?_, by simp,
        Or.inl ⟨by simp [hb], by simp [he]⟩⟩
      · push_cast
        omega
      · simp only [afterReview_draft_attempt, hk]
        congr 1
        push_cast
        omega
      · simp only [afterReview_retrieval_attempt, hr]
        congr 1
        push_cast
        omega
    | false =>
      by_cases hge : 3 ≤ k
      · refine ⟨escalation_step (afterReview c s), 1,
          runCycles_succ_escalate c fuel s cls k hc hk hb hge,
          le_refl 1, ?_, rfl, rfl, by simp [hc], ?_, ?_, by simp,
          Or.inr ⟨by simp [hb], by simp, ?_⟩⟩
        · push_cast
          omega
        · simp only [escalation_step_draft_attempt, afterReview_draft_attempt, hk]
          congr 1
          push_cast
          omega
        · simp only [escalation_step_retrieval_attempt, afterReview_retrieval_attempt, hr]
          congr 1
          push_cast
          omega
        · push_cast
          omega
      · have hlt : k < 3 := lt_of_not_ge hge
        have hroute : check_max_attempts (afterReview c s) = .ok "retry" :=
          check_max_attempts_retry _ k (by simp [hb]) (by simp [hk]) hlt
        obtain ⟨s2, h2eq, h2c, h2s, h2d, h2r, h2k, h2f, h2e, h2p⟩ :=
          retry_rag_node_spec c (afterReview c s) r (by simp [hr])
        obtain ⟨s3, h3eq, h3c, h3s, h3d, h3r, h3k, h3e, h3p⟩ :=
          retry_draft_node_spec c s2 k cls (by rw [h2k]; simp [hk]) (by rw [h2c]; simp [hc])
        have hstep : runCycles c (fuel + 1) s =
            (match runCycles c fuel s3 with
             | .error e => .error e
             | .ok (t, n) => .ok (t, n + 1)) := by
          simp only [runCycles, review_node_eq c s cls hc, hroute]
          rw [if_neg (show ¬("retry" : String) = "approved" by decide),
            if_neg (show ¬("retry" : String) = "max_attempts_reached" by decide)]
          simp only [h2eq, h3eq]
        obtain ⟨t, n, hrun, hn1, hn4, hsub, hdesc, hcls, hda, hra, hrp, hout⟩ :=
          ih s3 cls (r + 1) (k + 1)
            (by rw [h3c, h2c]; simp [hc])
            (by rw [h3r]; exact h2r)
            h3k
            (by rw [h3e, h2e]; simp [he])
            (by omega) (by omega) (by omega)
        refine ⟨t, n + 1, ?_, by omega, ?_, ?_, ?_, hcls, ?_, ?_, hrp, ?_⟩
        · rw [hstep, hrun]
        · push_cast at hn4 ⊢
          omega
        · rw [hsub, h3s, h2s]
          simp
        · rw [hdesc, h3d, h2d]
          simp
        · rw [hda]
          congr 1
          push_cast
          omega
        · rw [hra]
          congr 1
          push_cast
          omega
        · rcases hout with hl | ⟨hp, hesc, hval⟩
          · exact Or.inl hl
          · refine Or.inr ⟨hp, hesc, ?_⟩
            push_cast at hval ⊢
            omega

@[simp] theorem rag_retrieval_node_subject (c : Collaborators) (s : TicketState) :
    (rag_retrieval_node c s).subject = s.subject := rfl

@[simp] theorem rag_retrieval_node_description (c : Collaborators) (s : TicketState) :
    (rag_retrieval_node c s).description = s.description := rfl

@[simp] theorem rag_retrieval_node_classification (c : Collaborators) (s : TicketState) :
    (rag_retrieval_node c s).classification = s.classification := rfl

@[simp] theorem rag_retrieval_node_retrieval_attempt (c : Collaborators) (s : TicketState) :
    (rag_retrieval_node c s).retrieval_attempt = s.retrieval_attempt := rfl

@[simp] theorem rag_retrieval_node_draft_attempt (c : Collaborators) (s : TicketState) :
    (rag_retrieval_node c s).draft_attempt = some 1 := rfl

@[simp] theorem rag_retrieval_node_escalated (c : Collaborators) (s : TicketState) :
    (rag_retrieval_node c s).escalated = s.escalated := rfl

@[simp] theorem rag_retrieval_node_reviewer_feedback (c : Collaborators) (s : TicketState) :
    (rag_retrieval_node c s).reviewer_feedback = s.reviewer_feedback := rfl

@[simp] theorem classify_ticket_node_subject (c : Collaborators) (s : TicketState) :
    (classify_ticket_node c s).subject = s.subject := by
  rw [classify_ticket_node_eq]

@[simp] theorem classify_ticket_node_description (c : Collaborators) (s : TicketState) :
    (classify_ticket_node c s).description = s.description := by
  rw [classify_ticket_node_eq]

@[simp] theorem classify_ticket_node_classification (c : Collaborators) (s : TicketState) :
    (classify_ticket_node c s).classification = some (classifiedValue c s) := by
  rw [classify_ticket_node_eq]

@[simp] theorem classify_ticket_node_retrieval_attempt (c : Collaborators) (s : TicketState) :
    (classify_ticket_node c s).retrieval_attempt = s.retrieval_attempt := by
  rw [classify_ticket_node_eq]

@[simp] theorem classify_ticket_node_draft_attempt (c : Collaborators) (s : TicketState) :
    (classify_ticket_node c s).draft_attempt = s.draft_attempt := by
  rw [classify_ticket_node_eq]

@[simp] theorem classify_ticket_node_escalated (c : Collaborators) (s : TicketState) :
    (classify_ticket_node c s).escalated = s.escalated := by
  rw [classify_ticket_node_eq]

theorem draft_generation_node_spec (c : Collaborators) (s : TicketState) (cls : String)
    (r : Int) (hc : s.classification = some cls) (hr : s.retrieval_attempt = some r) :
    ∃ s3, draft_generation_node c s = .ok s3 ∧ s3.classification = s.classification ∧
      s3.subject = s.subject ∧ s3.description = s.description ∧
      s3.retrieval_attempt = s.retrieval_attempt ∧ s3.draft_attempt = s.draft_attempt ∧
      s3.escalated = s.escalated ∧ s3.review_passed = s.review_passed :=
  ⟨_, draft_generation_node_eq c s cls r hc hr, rfl, rfl, rfl, rfl, rfl, rfl, rfl⟩

/-- End-to-end spec of `graph.invoke`: started from any record whose
attempt counters are 1 and whose `escalated` field is unset, the
compiled graph returns a terminal record within 1–3 Review cycles, with
counters in lock-step equal to the cycle count and exactly one terminal
outcome set. -/
theorem execute_spec (c : Collaborators) (s0 : TicketState)
    (hr : s0.retrieval_attempt = some 1) (he : s0.escalated = none) :
    ∃ t n, execute c s0 = .ok (t, n) ∧ 1 ≤ n ∧ n ≤ 3 ∧
      t.subject = s0.subject ∧ t.description = s0.description ∧
      t.classification = some (classifiedValue c s0) ∧
      t.draft_attempt = some (n : Int) ∧ t.retrieval_attempt = some (n : Int) ∧
      t.review_passed = some ((reviewResult c.reviewLLM t.draft_attempt).1) ∧
      ((t.review_passed = some true ∧ t.escalated = none) ∨
       (t.review_passed = some false ∧ t.escalated = some true ∧ (n : Int) = 3)) := by
  obtain ⟨s3, hds, hc3, hs3, hd3, hr3, hk3, he3, _⟩ :=
    draft_generation_node_spec c (rag_retrieval_node c (classify_ticket_node c s0))
      (classifiedValue c s0) 1 (by simp) (by simp [hr])
  have hex : execute c s0 = runCycles c 25 s3 := by
    unfold execute
    simp only [hds]
  obtain ⟨t, n, hrun, hn1, hn4, hsub, hdesc, hcls, hda, hra, hrp, hout⟩ :=
    runCycles_spec c 25 s3 (classifiedValue c s0) 1 1
      (by rw [hc3]; simp)
      (by rw [hr3]; simp [hr])
      (by rw [hk3]; simp)
      (by rw [he3]; simp [he])
      (by omega) (by omega) (by norm_num)
  refine ⟨t, n, by rw [hex, hrun], hn1, by omega, ?_, ?_, hcls, ?_, ?_, hrp, ?_⟩
  · rw [hsub, hs3]
    simp
  · rw [hdesc, hd3]
    simp
  · rw [hda]
    congr 1
    omega
  · rw [hra]
    congr 1
    omega
  · rcases hout with hl | ⟨hp, hesc, hval⟩
    · exact Or.inl hl
    · exact Or.inr ⟨hp, hesc, by omega⟩

theorem String.append_eq_empty {a b : String} (h : a ++ b = "") : a = "" ∧ b = "" := by
  have hd := congrArg String.data h
  simp at hd
  exact ⟨String.ext hd.1, String.ext hd.2⟩

theorem ne_empty_of_containsStr (s t : String) (h : ContainsStr s t) (ht : t ≠ "") :
    s ≠ "" := by
  obtain ⟨a, b, rfl⟩ := h
  intro hemp
  exact ht ((String.append_eq_empty (String.append_eq_empty hemp).1).2)

theorem parse_review_result_feedback_ne (r : String) :
    (parse_review_result r).2 ≠ "" := by
  unfold parse_review_result
  dsimp only
  split
  · split <;> decide
  · assumption

theorem parseReviewLine_found_decision (acc : ParseAcc) (l : String)
    (h : pyStartsWith (pyStrip l) "DECISION:" = false) :
    (parseReviewLine acc l).found_decision = acc.found_decision := by
  unfold parseReviewLine
  simp only [h, Bool.false_eq_true, if_false]
  split
  · rfl
  · split <;> rfl

theorem foldl_parse_no_decision (lines : List String) (acc : ParseAcc)
    (hl : ∀ l ∈ lines, pyStartsWith (pyStrip l) "DECISION:" = false)
    (ha : acc.found_decision = false) :
    (lines.foldl parseReviewLine acc).found_decision = false := by
  induction lines generalizing acc with
  | nil => exact ha
  | cons l rest ih =>
    rw [List.foldl_cons]
    refine ih (parseReviewLine acc l) (fun x hx => hl x (List.mem_cons_of_mem l hx)) ?_
    rw [parseReviewLine_found_decision acc l (hl l (List.mem_cons_self l rest))]
    exact ha

theorem parse_review_result_no_decision (r : String)
    (h : ∀ l ∈ pySplitNl (pyStrip r), pyStartsWith (pyStrip l) "DECISION:" = false) :
    (parse_review_result r).1 = false := by
  unfold parse_review_result
  dsimp only
  rw [foldl_parse_no_decision _ _ h rfl]
  rfl

/-- C1: the routing decision evaluated after every Review
(`check_max_attempts`) is a pure total function of
`(draft_attempt, review_passed)` only: a true `review_passed` routes to
Approved whatever the attempt count; otherwise attempts below 3 route to
Retry and attempts at least 3 route to Escalate; and two states agreeing
on those two fields get the same decision. -/
theorem claim_C1_routing_policy (s : TicketState) (a : Int)
    (ha : s.draft_attempt = some a) :
    (s.review_passed = some true → check_max_attempts s = .ok "approved") ∧
    (s.review_passed ≠ some true → a < 3 → check_max_attempts s = .ok "retry") ∧
    (s.review_passed ≠ some true → 3 ≤ a → check_max_attempts s = .ok "max_attempts_reached") ∧
    (∀ t : TicketState, t.draft_attempt = s.draft_attempt →
      t.review_passed = s.review_passed → check_max_attempts t = check_max_attempts s) := by
  refine ⟨fun hp => ?_, fun hp hlt => ?_, fun hp hge => ?_, fun t h1 h2 => ?_⟩
  · simp [check_max_attempts, hp]
  · simp [check_max_attempts, hp, ha, not_le.mpr hlt]
  · simp [check_max_attempts, hp, ha, hge]
  · simp only [check_max_attempts, h1, h2]

/-- C1 witness: the routing table evaluated at a concrete state with
`draft_attempt = 2` and a failed review. -/
theorem claim_C1_routing_policy_witness :
    stateW1.draft_attempt = some 2 ∧ stateW1.review_passed ≠ some true ∧
    check_max_attempts stateW1 = .ok "retry" :=
  ⟨rfl, by decide, (claim_C1_routing_policy stateW1 2 rfl).2.1 (by decide) (by decide)⟩

/-- C7: every Review invocation yields a definite boolean — a raise from
the completion client becomes `(False, technical-failure feedback)`, a
reply with no parsable `DECISION:` line parses to a failed review, and
the parsed feedback text is never empty. -/
theorem claim_C7_review_definite :
    (∀ (llm : Option Int → Except String String) (subject description cls : String)
        (draft : Option String) (attempt : Option Int) (e : String),
        llm attempt = .error e →
        review_draft llm subject description (some cls) draft attempt =
          .ok (false, techFeedback)) ∧
    techFeedback ≠ "" ∧
    (∀ r : String, (∀ l ∈ pySplitNl (pyStrip r), pyStartsWith (pyStrip l) "DECISION:" = false) →
        (parse_review_result r).1 = false) ∧
    (∀ r : String, (parse_review_result r).2 ≠ "") := by
  refine ⟨?_, by decide, parse_review_result_no_decision, parse_review_result_feedback_ne⟩
  intro llm subject description cls draft attempt e he
  simp only [review_draft, he]

/-- C7 witness: a raised review call and an unparsable review reply,
both at concrete inputs. -/
theorem claim_C7_review_definite_witness :
    collabDown.reviewLLM (some 1) = .error "requests.exceptions.ConnectionError" ∧
    review_draft collabDown.reviewLLM "Login issue" "Cannot login" (some "security")
      (some "draft text") (some 1) = .ok (false, techFeedback) ∧
    (parse_review_result "The draft looks fine to me.").1 = false ∧
    (parse_review_result "The draft looks fine to me.").2 ≠ "" :=
  ⟨rfl,
   claim_C7_review_definite.1 collabDown.reviewLLM "Login issue" "Cannot login"
     "security" (some "draft text") (some 1) "requests.exceptions.ConnectionError" rfl,
   claim_C7_review_definite.2.2.1 "The draft looks fine to me." (by decide),
   claim_C7_review_definite.2.2.2 "The draft looks fine to me."⟩

/-- C10: `format_context_for_prompt` returns exactly the fixed sentinel
on the empty list, and on a non-empty list returns a text embedding
every document's title and content in input order. -/
theorem claim_C10_format_context :
    format_context_for_prompt [] = "No relevant documentation found." ∧
    ∀ documents : List Document, documents ≠ [] →
      EmbedsInOrder (format_context_for_prompt documents) (docParts documents) := by
  refine ⟨rfl, fun documents hne => ?_⟩
  unfold format_context_for_prompt
  rw [if_neg hne]
  exact embedsInOrder_prepend _ _ _ (embedsInOrder_renderDocs documents 1)

/-- C10 witness: formatting a concrete two-document list embeds both
titles and contents in order. -/
theorem claim_C10_format_context_witness :
    docsW ≠ [] ∧ EmbedsInOrder (format_context_for_prompt docsW) (docParts docsW) :=
  ⟨by decide, claim_C10_format_context.2 docsW (by decide)⟩

/-- C2: from every valid freshly initialized ticket record (§3
lifecycle: optional fields unset, both counters at 1), the graph
terminates within at most 3 Draft/Review cycles, whatever the
collaborators do, and the returned terminal record has
`draft_attempt ≤ 3`. -/
theorem claim_C2_termination (c : Collaborators) (s0 : TicketState) (h : ValidInit s0) :
    ∃ t n, execute c s0 = .ok (t, n) ∧ n ≤ 3 ∧
      ∃ a : Int, t.draft_attempt = some a ∧ a ≤ 3 := by
  obtain ⟨-, -, -, -, -, hr, -, -, -, -, -, he⟩ := h
  obtain ⟨t, n, hex, -, hn3, -, -, -, hda, -, -, -⟩ := execute_spec c s0 hr he
  exact ⟨t, n, hex, hn3, (n : Int), hda, by omega⟩

/-- C2 witness: a concrete run (approving reviewer) terminates within 3
cycles with `draft_attempt ≤ 3`. -/
theorem claim_C2_termination_witness :
    ValidInit initW ∧
    ∃ t n, execute collabOK initW = .ok (t, n) ∧ n ≤ 3 ∧
      ∃ a : Int, t.draft_attempt = some a ∧ a ≤ 3 :=
  ⟨by decide, claim_C2_termination collabOK initW (by decide)⟩

/-- C3: every terminal record the graph returns from a valid fresh
record satisfies the mutual-exclusion invariant: either
`review_passed = true` and `escalated` is not true (Approved exit), or
`escalated = true` and `review_passed` is not true (Escalate exit). -/
theorem claim_C3_exclusive_outcome (c : Collaborators) (s0 : TicketState) (h : ValidInit s0)
    (t : TicketState) (n : Nat) (hex : execute c s0 = .ok (t, n)) :
    (t.review_passed = some true ∧ t.escalated ≠ some true) ∨
    (t.escalated = some true ∧ t.review_passed ≠ some true) := by
  obtain ⟨-, -, -, -, -, hr, -, -, -, -, -, he⟩ := h
  obtain ⟨t', n', hex', -, -, -, -, -, -, -, -, hout⟩ := execute_spec c s0 hr he
  rw [hex] at hex'
  simp only [Except.ok.injEq, Prod.mk.injEq] at hex'
  obtain ⟨rfl, rfl⟩ := hex'
  rcases hout with ⟨hp, hesc⟩ | ⟨hp, hesc, -⟩
  · exact Or.inl ⟨hp, by rw [hesc]; simp⟩
  · exact Or.inr ⟨hesc, by rw [hp]; simp⟩

/-- C3 witness: the concrete approving run ends with `review_passed`
true and `escalated` unset. -/
theorem claim_C3_exclusive_outcome_witness :
    ValidInit initW ∧ execute collabOK initW = .ok (tW3, 1) ∧
    ((tW3.review_passed = some true ∧ tW3.escalated ≠ some true) ∨
     (tW3.escalated = some true ∧ tW3.review_passed ≠ some true)) :=
  ⟨by decide, by rfl, claim_C3_exclusive_outcome collabOK initW (by decide) tW3 1 (by rfl)⟩

/-- C4: attempt counters are monotone and in lock-step.
`retry_rag_node` increments `retrieval_attempt` by exactly 1 and leaves
`draft_attempt` alone; `retry_draft_node` increments `draft_attempt` by
exactly 1 and leaves `retrieval_attempt` alone; Classify and Review
leave both counters unchanged; the initial Retrieve stores
`retrieval_attempt` back unchanged and initializes `draft_attempt` to 1;
and a full run from a valid fresh record ends with both counters equal
to the number of executed Review cycles (so each of the `n - 1` retry
cycles advanced both by exactly 1). -/
theorem claim_C4_monotonic_lockstep :
    (∀ (c : Collaborators) (s : TicketState) (r : Int) (s2 : TicketState),
        s.retrieval_attempt = some r → retry_rag_node c s = .ok s2 →
        s2.retrieval_attempt = some (r + 1) ∧ s2.draft_attempt = s.draft_attempt) ∧
    (∀ (c : Collaborators) (s : TicketState) (k : Int) (cls : String) (s3 : TicketState),
        s.draft_attempt = some k → s.classification = some cls →
        retry_draft_node c s = .ok s3 →
        s3.draft_attempt = some (k + 1) ∧ s3.retrieval_attempt = s.retrieval_attempt) ∧
    (∀ (c : Collaborators) (s : TicketState),
        (classify_ticket_node c s).draft_attempt = s.draft_attempt ∧
        (classify_ticket_node c s).retrieval_attempt = s.retrieval_attempt) ∧
    (∀ (c : Collaborators) (s : TicketState),
        (rag_retrieval_node c s).retrieval_attempt = s.retrieval_attempt ∧
        (rag_retrieval_node c s).draft_attempt = some 1) ∧
    (∀ (c : Collaborators) (s t : TicketState), review_node c s = .ok t →
        t.draft_attempt = s.draft_attempt ∧ t.retrieval_attempt = s.retrieval_attempt) ∧
    (∀ (c : Collaborators) (s0 : TicketState), ValidInit s0 →
        ∀ (t : TicketState) (n : Nat), execute c s0 = .ok (t, n) →
        t.draft_attempt = some (n : Int) ∧ t.retrieval_attempt = some (n : Int) ∧
        1 ≤ n ∧ n ≤ 3) := by
  refine ⟨?_, ?_, ?_, ?_, ?_, ?_⟩
  · intro c s r s2 hr heq
    rw [retry_rag_node_eq c s r hr] at heq
    simp only [Except.ok.injEq] at heq
    subst heq
    exact ⟨rfl, rfl⟩
  · intro c s k cls s3 hk hc heq
    rw [retry_draft_node_eq c s k cls hk hc] at heq
    simp only [Except.ok.injEq] at heq
    subst heq
    exact ⟨rfl, rfl⟩
  · intro c s
    constructor <;> simp
  · intro c s
    exact ⟨rfl, rfl⟩
  · intro c s t heq
    unfold review_node at heq
    rcases hrd : review_draft c.reviewLLM s.subject s.description s.classification
        s.draft_response s.draft_attempt with e | result
    · simp only [hrd] at heq
      simp at heq
    · simp only [hrd, Except.ok.injEq] at heq
      subst heq
      exact ⟨rfl, rfl⟩
  · intro c s0 h t n hex
    obtain ⟨-, -, -, -, -, hr, -, -, -, -, -, he⟩ := h
    obtain ⟨t', n', hex', hn1, hn3, -, -, -, hda, hra, -, -⟩ := execute_spec c s0 hr he
    rw [hex] at hex'
    simp only [Except.ok.injEq, Prod.mk.injEq] at hex'
    obtain ⟨rfl, rfl⟩ := hex'
    exact ⟨hda, hra, hn1, hn3⟩

/-- C4 witness: concrete retry nodes advance the counters from 2 to 3
in lock-step, and the concrete full run ends with both counters equal
to the cycle count 1. -/
theorem claim_C4_monotonic_lockstep_witness :
    (s2W.retrieval_attempt = some 3 ∧ s2W.draft_attempt = stateW1.draft_attempt) ∧
    (s3W.draft_attempt = some 3 ∧ s3W.retrieval_attempt = stateW1.retrieval_attempt) ∧
    (tW3.draft_attempt = some ((1 : Nat) : Int) ∧
      tW3.retrieval_attempt = some ((1 : Nat) : Int) ∧ 1 ≤ 1 ∧ 1 ≤ 3) := by
  refine ⟨?_, ?_, ?_⟩
  · exact claim_C4_monotonic_lockstep.1 collabOK stateW1 2 s2W rfl (by rfl)
  · exact claim_C4_monotonic_lockstep.2.1 collabOK stateW1 2 "security" s3W rfl rfl (by rfl)
  · exact claim_C4_monotonic_lockstep.2.2.2.2.2 collabOK initW (by decide) tW3 1 (by rfl)

/-- C9: a failing Classify stage does not abort the run — an empty
subject/description or a raise from the classifier degrades the
classification to `"general"`, and with a raising classifier the
workflow from a valid fresh record still reaches a normal terminal
outcome (one of the two exits) with classification `"general"`. -/
theorem claim_C9_classify_degrades :
    (∀ (c : Collaborators) (s : TicketState) (e : String),
        s.subject = "" ∨ s.description = "" ∨ c.classify = .error e →
        (classify_ticket_node c s).classification = some "general") ∧
    (∀ (c : Collaborators) (s0 : TicketState) (e : String), ValidInit s0 →
        c.classify = .error e →
        ∃ t n, execute c s0 = .ok (t, n) ∧ t.classification = some "general" ∧
          ((t.review_passed = some true ∧ t.escalated ≠ some true) ∨
           (t.escalated = some true ∧ t.review_passed ≠ some true))) := by
  constructor
  · intro c s e h
    rw [classify_ticket_node_eq]
    show some (classifiedValue c s) = some "general"
    unfold classifiedValue
    split
    · rfl
    · rename_i hcond
      rcases h with h1 | h2 | h3
      · exact absurd (by simp [h1]) hcond
      · exact absurd (by simp [h2]) hcond
      · rw [h3]
  · intro c s0 e h herr
    obtain ⟨hs, hd, -, -, -, hr, -, -, -, -, -, he⟩ := h
    obtain ⟨t, n, hex, -, -, -, -, hcls, -, -, -, hout⟩ := execute_spec c s0 hr he
    have hgen : classifiedValue c s0 = "general" := by
      unfold classifiedValue
      rw [if_neg (by simp [hs, hd]), herr]
    refine ⟨t, n, hex, by rw [hcls, hgen], ?_⟩
    rcases hout with ⟨hp, hesc⟩ | ⟨hp, hesc, -⟩
    · exact Or.inl ⟨hp, by rw [hesc]; simp⟩
    · exact Or.inr ⟨hesc, by rw [hp]; simp⟩

/-- C9 witness: the concrete raising classifier yields `"general"` and
the run still reaches a terminal outcome. -/
theorem claim_C9_classify_degrades_witness :
    (classify_ticket_node collabClassifyFail initW).classification = some "general" ∧
    ∃ t n, execute collabClassifyFail initW = .ok (t, n) ∧
      t.classification = some "general" ∧
      ((t.review_passed = some true ∧ t.escalated ≠ some true) ∨
       (t.escalated = some true ∧ t.review_passed ≠ some true)) :=
  ⟨claim_C9_classify_degrades.1 collabClassifyFail initW
     "AttributeError inside TicketClassifier" (Or.inr (Or.inr rfl)),
   claim_C9_classify_degrades.2 collabClassifyFail initW
     "AttributeError inside TicketClassifier" (by decide) rfl⟩

/-- C5 (code-bug exhibit): on the record `main.create_initial_state`
actually builds — every optional key bound to `None` — the first
Retrieve runs with `retrieval_attempt = None` (the `state.get` default
`1` never applies because the key is present), the record after it
still has `retrieval_attempt = None` with `draft_attempt` initialized to
1, and the first retry raises `TypeError` on `None + 1`, so the whole
run raises instead of producing `retrieval_attempt = 1` as the spec
requires. -/
theorem claim_C5_first_retrieve_none :
    (rag_retrieval_node collabDown (classify_ticket_node collabDown mainW)).retrieval_attempt
        = none ∧
    (rag_retrieval_node collabDown (classify_ticket_node collabDown mainW)).draft_attempt
        = some 1 ∧
    retry_rag_node collabDown
        (rag_retrieval_node collabDown (classify_ticket_node collabDown mainW)) =
      .error "TypeError: unsupported operand types NoneType and int" ∧
    execute collabDown mainW =
      .error "TypeError: unsupported operand types NoneType and int" :=
  ⟨rfl, rfl, rfl, rfl⟩

/-- C6 counterexample: with a Draft collaborator that raises on its
(only) invocation but a reviewer that approves the fallback draft, the
run terminates Approved, not by escalation — so "the run reaches
escalation" does not follow from Draft failure alone. -/
theorem claim_C6_counterexample :
    collabDraftFail.draftLLM (some 1) = .error "requests.exceptions.ConnectionError" ∧
    execute collabDraftFail initW = .ok (tW6, 1) ∧
    tW6.review_passed = some true ∧ tW6.escalated ≠ some true :=
  ⟨rfl, rfl, rfl, by decide⟩

/-- C6 (amended): if the completion service fails on every invocation —
so every Draft call and every Review call raises, which is what a
failing Draft collaborator means in this codebase since both stages
share the one Groq client — then no exception escapes the engine: Draft
failure yields the category fallback text, Review failure yields
`(False, technical feedback)`, and the run from a valid fresh record
reaches escalation after exactly 3 cycles with `draft_attempt = 3`. -/
theorem claim_C6_amended_fallback_safety (c : Collaborators) (s0 : TicketState)
    (h : ValidInit s0) (e1 e2 : String)
    (hd : ∀ a, c.draftLLM a = .error e1) (hrv : ∀ a, c.reviewLLM a = .error e2) :
    (∀ (cls subject description : String) (fc fb : Option String) (a : Int),
        generate_draft c.draftLLM subject description (some cls) fc fb (some a) =
          .ok (get_fallback_response cls)) ∧
    (∀ (subject description cls : String) (dr : Option String) (a : Option Int),
        review_draft c.reviewLLM subject description (some cls) dr a =
          .ok (false, techFeedback)) ∧
    ∃ t, execute c s0 = .ok (t, 3) ∧ t.escalated = some true ∧
      t.review_passed = some false ∧ t.draft_attempt = some 3 := by
  have hfail : ∀ a, reviewResult c.reviewLLM a = (false, techFeedback) := by
    intro a
    unfold reviewResult
    rw [hrv a]
  refine ⟨?_, ?_, ?_⟩
  · intro cls subject description fc fb a
    simp only [generate_draft_some, draftResult, hd]
  · intro subject description cls dr a
    rw [review_draft_some, hfail a]
  · obtain ⟨-, -, -, -, -, hr, -, -, -, -, -, he⟩ := h
    obtain ⟨t, n, hex, hn1, hn3, -, -, -, hda, -, hrp, hout⟩ := execute_spec c s0 hr he
    simp only [hfail] at hrp
    rcases hout with ⟨hp, -⟩ | ⟨hp, hesc, hn⟩
    · rw [hp] at hrp
      simp at hrp
    · have hn' : n = 3 := by omega
      subst hn'
      refine ⟨t, hex, hesc, hp, ?_⟩
      rw [hda]
      norm_num

/-- C6 amended witness: the concrete fully-failing service leads to
escalation in exactly 3 cycles. -/
theorem claim_C6_amended_fallback_safety_witness :
    ValidInit initW ∧
    ∃ t, execute collabDown initW = .ok (t, 3) ∧ t.escalated = some true ∧
      t.review_passed = some false ∧ t.draft_attempt = some 3 :=
  ⟨by decide,
   (claim_C6_amended_fallback_safety collabDown initW (by decide)
      "requests.exceptions.ConnectionError" "requests.exceptions.ConnectionError"
      (fun _ => rfl) (fun _ => rfl)).2.2⟩

/-- C8 counterexample: the recorder-failure clause of the claim is
false on the code — when constructing `EscalationLogger()` fails (its
`_ensure_csv_exists` performs an unguarded `open`), the escalation node
raises instead of returning the terminal update, so that recorder
failure does change the node's outcome, even on a record the routing
sent to Escalate. -/
theorem claim_C8_counterexample :
    check_max_attempts stateW8 = .ok "max_attempts_reached" ∧
    escalation_node_with_logging (.error "OSError: read-only file system") (.ok ())
      stateW8 = .error "OSError: read-only file system" ∧
    escalation_node_with_logging (.ok ()) (.ok ()) stateW8 =
      .ok (escalation_node stateW8) ∧
    escalation_node_with_logging (.error "OSError: read-only file system") (.ok ())
      stateW8 ≠ escalation_node_with_logging (.ok ()) (.ok ()) stateW8 :=
  ⟨rfl, rfl, rfl, by simp [escalation_node_with_logging]⟩

/-- C8 (amended): for a record routed to Escalate, once the recorder is
successfully constructed, `escalation_node_with_logging` returns the
same update as the wired `escalation_node`: `escalated = true`,
`max_attempts_reached = true` and a deterministic non-empty
`escalation_message` embedding the original subject and description,
the classification, the final draft, the final reviewer feedback and
the attempt count — and a failure of the logged CSV write (the guarded
part of the recorder) does not change that update.  A failure while
constructing the recorder instead raises past the node (see the
counterexample); the node actually wired into the graph,
`escalation_node`, performs no recorder interaction at all. -/
theorem claim_C8_escalation_update (s : TicketState) (cls d fb : String) (a : Int)
    (write write2 : Except String Unit)
    (hroute : check_max_attempts s = .ok "max_attempts_reached")
    (hc : s.classification = some cls) (hd : s.draft_response = some d)
    (hf : s.reviewer_feedback = some fb) (ha : s.draft_attempt = some a) :
    escalation_node_with_logging (.ok ()) write s = .ok (escalation_node s) ∧
    escalation_node_with_logging (.ok ()) write s =
      escalation_node_with_logging (.ok ()) write2 s ∧
    (escalation_node s).escalated = some true ∧
    (escalation_node s).max_attempts_reached = some true ∧
    (escalation_node s).escalation_message =
      some (escalation_message s) ∧
    escalation_message s ≠ "" ∧
    ContainsStr (escalation_message s) s.subject ∧
    ContainsStr (escalation_message s) s.description ∧
    ContainsStr (escalation_message s) cls ∧
    ContainsStr (escalation_message s) d ∧
    ContainsStr (escalation_message s) fb ∧
    ContainsStr (escalation_message s) (toString a) := by
  clear hroute
  have hmsg : escalation_message s =
      "This ticket has been escalated for human review after failing automated processing.\n\nOriginal Ticket:\nSubject: " ++
        (s.subject ++ ("  \nDescription: " ++ (s.description ++ ("\nClassification: " ++
        (cls ++ ("\n\nAttempts Made: " ++ (toString a ++ ("\nFailed Draft: " ++
        (d ++ ("\nFinal Reviewer Feedback: " ++ (fb ++
        "\n\nPlease review and respond manually."))))))))))) := by
    unfold escalation_message
    rw [hc, hd, hf, ha]
    simp only [pyStr, pyStrInt, String.append_assoc']
  have hfbpart : ContainsStr (escalation_message s) "\nFinal Reviewer Feedback: " := by
    refine ⟨"This ticket has been escalated for human review after failing automated processing.\n\nOriginal Ticket:\nSubject: " ++
      (s.subject ++ ("  \nDescription: " ++ (s.description ++ ("\nClassification: " ++
      (cls ++ ("\n\nAttempts Made: " ++ (toString a ++ ("\nFailed Draft: " ++ d)))))))),
      fb ++ "\n\nPlease review and respond manually.", ?_⟩
    rw [hmsg]
    simp only [String.append_assoc']
  refine ⟨rfl, rfl, rfl, rfl, rfl,
    ne_empty_of_containsStr _ _ hfbpart (by decide), ?_, ?_, ?_, ?_, ?_, ?_⟩
  · refine ⟨"This ticket has been escalated for human review after failing automated processing.\n\nOriginal Ticket:\nSubject: ",
      "  \nDescription: " ++ (s.description ++ ("\nClassification: " ++
      (cls ++ ("\n\nAttempts Made: " ++ (toString a ++ ("\nFailed Draft: " ++
      (d ++ ("\nFinal Reviewer Feedback: " ++ (fb ++
      "\n\nPlease review and respond manually."))))))))), ?_⟩
    rw [hmsg]
    simp only [String.append_assoc']
  · refine ⟨"This ticket has been escalated for human review after failing automated processing.\n\nOriginal Ticket:\nSubject: " ++
      (s.subject ++ "  \nDescription: "),
      "\nClassification: " ++ (cls ++ ("\n\nAttempts Made: " ++ (toString a ++
      ("\nFailed Draft: " ++ (d ++ ("\nFinal Reviewer Feedback: " ++ (fb ++
      "\n\nPlease review and respond manually."))))))), ?_⟩
    rw [hmsg]
    simp only [String.append_assoc']
  · refine ⟨"This ticket has been escalated for human review after failing automated processing.\n\nOriginal Ticket:\nSubject: " ++
      (s.subject ++ ("  \nDescription: " ++ (s.description ++ "\nClassification: "))),
      "\n\nAttempts Made: " ++ (toString a ++ ("\nFailed Draft: " ++ (d ++
      ("\nFinal Reviewer Feedback: " ++ (fb ++
      "\n\nPlease review and respond manually."))))), ?_⟩
    rw [hmsg]
    simp only [String.append_assoc']
  · refine ⟨"This ticket has been escalated for human review after failing automated processing.\n\nOriginal Ticket:\nSubject: " ++
      (s.subject ++ ("  \nDescription: " ++ (s.description ++ ("\nClassification: " ++
      (cls ++ ("\n\nAttempts Made: " ++ (toString a ++ "\nFailed Draft: "))))))),
      "\nFinal Reviewer Feedback: " ++ (fb ++
      "\n\nPlease review and respond manually."), ?_⟩
    rw [hmsg]
    simp only [String.append_assoc']
  · refine ⟨"This ticket has been escalated for human review after failing automated processing.\n\nOriginal Ticket:\nSubject: " ++
      (s.subject ++ ("  \nDescription: " ++ (s.description ++ ("\nClassification: " ++
      (cls ++ ("\n\nAttempts Made: " ++ (toString a ++ ("\nFailed Draft: " ++
      (d ++ "\nFinal Reviewer Feedback: "))))))))),
      "\n\nPlease review and respond manually.", ?_⟩
    rw [hmsg]
    simp only [String.append_assoc']
  · refine ⟨"This ticket has been escalated for human review after failing automated processing.\n\nOriginal Ticket:\nSubject: " ++
      (s.subject ++ ("  \nDescription: " ++ (s.description ++ ("\nClassification: " ++
      (cls ++ "\n\nAttempts Made: "))))),
      "\nFailed Draft: " ++ (d ++ ("\nFinal Reviewer Feedback: " ++ (fb ++
      "\n\nPlease review and respond manually."))), ?_⟩
    rw [hmsg]
    simp only [String.append_assoc']

/-- C8 witness: a concrete escalated record — routing says Escalate,
the successfully-constructed recorder node returns the wired node's
update whatever the write outcome, and the message embeds the subject
and is non-empty. -/
theorem claim_C8_escalation_update_witness :
    check_max_attempts stateW8 = .ok "max_attempts_reached" ∧
    escalation_node_with_logging (.ok ()) (.ok ()) stateW8 =
      .ok (escalation_node stateW8) ∧
    escalation_node_with_logging (.ok ()) (.ok ()) stateW8 =
      escalation_node_with_logging (.ok ()) (.error "OSError: disk full") stateW8 ∧
    (escalation_node stateW8).escalated = some true ∧
    escalation_message stateW8 ≠ "" ∧
    ContainsStr (escalation_message stateW8) stateW8.subject := by
  have h := claim_C8_escalation_update stateW8 "security" "Please reset your password."
    "Add concrete steps." 3 (.ok ()) (.error "OSError: disk full")
    (by rfl) rfl rfl rfl rfl
  exact ⟨by rfl, h.1, h.2.1, h.2.2.1, h.2.2.2.2.2.1, h.2.2.2.2.2.2.1⟩
